import Mathlib

/-!
Shallow embedding of the express-csp-generator middleware (src/index.ts) and
proofs about its normalization and rendering pipeline.

Strings are modelled as Lean `String` (a wrapper around a list of characters);
JavaScript objects used as directive mappings are modelled as association
lists in insertion order, which is the iteration order of `for ... in` for
the non-numeric keys used by CSP directive names.
-/

namespace Csp

/-- Value attached to a directive: either a literal string token or a dynamic
producer invoked with the request and the response at render time. -/
inductive DirectiveValue (Req Res : Type) where
  | literal (s : String)
  | dynamic (f : Req → Res → String)

/-- Raw value supplied for a directive key in the configuration: a bare string,
an iterable of directive values, the disable sentinel
(dangerouslyDisableDefaultSrc), or a falsy non-string value such as null or
undefined. The order of the runtime type tests in the source (string first,
then falsy, then sentinel, then iterable) is reproduced in the normalizer;
note that the empty string is caught by the string test, since it is tested
before falsiness. -/
inductive RawDirectiveValue (Req Res : Type) where
  | str (s : String)
  | values (l : List (DirectiveValue Req Res))
  | disableDefaultSrc
  | nullish

/-- Caller configuration: the optional directives mapping, in insertion order,
and the reportOnly flag. -/
structure ContentSecurityPolicyOptions (Req Res : Type) where
  directives : Option (List (String × RawDirectiveValue Req Res))
  reportOnly : Bool

/-- One entry of the normalized policy. -/
structure NormalizedDirective (Req Res : Type) where
  directiveName : String
  directiveValue : List (DirectiveValue Req Res)

/-- Errors raised by normalization and rendering, one constructor per throw
site of the source. -/
inductive CspError where
  | invalidDirectiveName (raw : String)
  | duplicateDirective (name : String)
  | invalidDirectiveValue (name : String)
  | disableNonDefaultSrc (name : String)
  | noDirectives
  | needsDefaultSrc
  deriving DecidableEq

/-- Built-in default directive table (DEFAULT_DIRECTIVES in the source). -/
def DEFAULT_DIRECTIVES (Req Res : Type) :
    List (String × RawDirectiveValue Req Res) :=
  [("default-src", .values [.literal "'self'"]),
   ("base-uri", .values [.literal "'self'"]),
   ("block-all-mixed-content", .values []),
   ("font-src", .values [.literal "'self'", .literal "https:", .literal "data:"]),
   ("frame-ancestors", .values [.literal "'self'"]),
   ("img-src", .values [.literal "'self'", .literal "data:"]),
   ("object-src", .values [.literal "'none'"]),
   ("script-src", .values [.literal "'self'"]),
   ("script-src-attr", .values [.literal "'none'"]),
   ("style-src", .values [.literal "'self'", .literal "https:", .literal "'unsafe-inline'"]),
   ("upgrade-insecure-requests", .values [])]

/-- Accessor for the default table, as used by the normalizer when no
directives mapping is supplied. The reference-level shallow-copy semantics of
the accessor are modelled separately in the HeapModel namespace. -/
def getDefaultDirectives (Req Res : Type) :
    List (String × RawDirectiveValue Req Res) :=
  DEFAULT_DIRECTIVES Req Res

/-- Character class of the directive name validation regex, the characters
a-z, A-Z, 0-9 and the hyphen. -/
def isValidDirectiveNameChar (c : Char) : Bool :=
  (97 ≤ c.toNat && c.toNat ≤ 122) || (65 ≤ c.toNat && c.toNat ≤ 90) ||
    (48 ≤ c.toNat && c.toNat ≤ 57) || c == '-'

/-- Rejection test for a raw directive name: empty, or containing some
character outside the allowed class (the source tests length zero or the
regex for a character not in a-zA-Z0-9 or hyphen). -/
def isInvalidDirectiveName (s : String) : Bool :=
  s.data.isEmpty || s.data.any (fun c => !(isValidDirectiveNameChar c))

/-- Replacement for one character under the dashify regex: an ASCII capital
letter becomes a hyphen followed by its lowercase form, every other character
is kept. -/
def dashifyChar (c : Char) : List Char :=
  if c.isUpper then ['-', c.toLower] else [c]

/-- Canonicalization of a raw directive name to kebab-case (dashify in the
source). -/
def dashify (s : String) : String :=
  ⟨(s.data.map dashifyChar).flatten⟩

/-- Separator test for directive values (isDirectiveValueInvalid in the
source, the regex testing for a semicolon or a comma). -/
def isDirectiveValueInvalid (directiveValue : String) : Bool :=
  directiveValue.data.any (fun c => c == ';' || c == ',')

/-- Element check applied inside normalization: only string elements are
checked there, dynamic producers are checked per request at render time. -/
def elementInvalid {Req Res : Type} : DirectiveValue Req Res → Bool
  | .literal s => isDirectiveValueInvalid s
  | .dynamic _ => false

/-- Loop body of normalizeDirectives: processes the raw entries in iteration
order, threading the set of canonical names already seen (as a list) and the
result accumulator, and returns both on success. The canonical name is
recorded in the seen set before the sentinel skip, exactly as in the source,
where directiveNamesSeen.add precedes the sentinel test. -/
def normalizeLoop {Req Res : Type} :
    List (String × RawDirectiveValue Req Res) → List String →
    List (NormalizedDirective Req Res) →
    Except CspError (List String × List (NormalizedDirective Req Res))
  | [], seen, result => .ok (seen, result)
  | (rawDirectiveName, rawDirectiveValue) :: rest, seen, result =>
    if isInvalidDirectiveName rawDirectiveName then
      .error (.invalidDirectiveName rawDirectiveName)
    else
      let directiveName := dashify rawDirectiveName
      if seen.contains directiveName then
        .error (.duplicateDirective directiveName)
      else
        match rawDirectiveValue with
        | .str s =>
          if ([DirectiveValue.literal s] : List (DirectiveValue Req Res)).any elementInvalid then
            .error (.invalidDirectiveValue directiveName)
          else
            normalizeLoop rest (seen ++ [directiveName])
              (result ++ [⟨directiveName, [.literal s]⟩])
        | .nullish => .error (.invalidDirectiveValue directiveName)
        | .disableDefaultSrc =>
          if directiveName == "default-src" then
            normalizeLoop rest (seen ++ [directiveName]) result
          else
            .error (.disableNonDefaultSrc directiveName)
        | .values l =>
          if l.any elementInvalid then
            .error (.invalidDirectiveValue directiveName)
          else
            normalizeLoop rest (seen ++ [directiveName]) (result ++ [⟨directiveName, l⟩])

/-- Normalization of a configuration (normalizeDirectives in the source):
substitutes the default table when no directives mapping was given, runs the
per-entry loop, then rejects an empty result and a result whose seen set
lacks default-src, in that order. -/
def normalizeDirectives {Req Res : Type}
    (options : ContentSecurityPolicyOptions Req Res) :
    Except CspError (List (NormalizedDirective Req Res)) :=
  match normalizeLoop (options.directives.getD (getDefaultDirectives Req Res)) [] [] with
  | .error e => .error e
  | .ok (directiveNamesSeen, result) =>
    if result.isEmpty then
      .error .noDirectives
    else if !(directiveNamesSeen.contains "default-src") then
      .error .needsDefaultSrc
    else
      .ok result

/-- Resolution of one directive value element at render time: a literal
passes through, a dynamic producer is invoked with the request and the
response. -/
def resolveElement {Req Res : Type} (req : Req) (res : Res) :
    DirectiveValue Req Res → String
  | .literal s => s
  | .dynamic f => f req res

/-- Accumulated rendered value of one directive: every resolved element
prefixed with one space, concatenated left to right starting from the empty
string, as in the source loop building directiveValue. -/
def accumulateValue {Req Res : Type} (req : Req) (res : Res)
    (l : List (DirectiveValue Req Res)) : String :=
  l.foldl (fun acc element => acc ++ " " ++ resolveElement req res element) ""

/-- Join of the rendered directive strings with a semicolon and no trailing
separator (result.join with a semicolon in the source). -/
def joinWithSemicolon : List String → String
  | [] => ""
  | [a] => a
  | a :: rest => a ++ ";" ++ joinWithSemicolon rest

/-- Loop body of getHeaderValue: renders each normalized directive, pushing
the bare name when the accumulated value is empty, failing when the
accumulated value contains a separator, and otherwise pushing the name
followed by the accumulated value (which carries its own leading space). -/
def renderLoop {Req Res : Type} (req : Req) (res : Res) :
    List (NormalizedDirective Req Res) → List String → Except CspError String
  | [], result => .ok (joinWithSemicolon result)
  | nd :: rest, result =>
    let directiveValue := accumulateValue req res nd.directiveValue
    if directiveValue.data.isEmpty then
      renderLoop req res rest (result ++ [nd.directiveName])
    else if isDirectiveValueInvalid directiveValue then
      .error (.invalidDirectiveValue nd.directiveName)
    else
      renderLoop req res rest (result ++ [nd.directiveName ++ directiveValue])

/-- Per-request rendering of the normalized policy (getHeaderValue in the
source). -/
def getHeaderValue {Req Res : Type} (req : Req) (res : Res)
    (normalizedDirectives : List (NormalizedDirective Req Res)) :
    Except CspError String :=
  renderLoop req res normalizedDirectives []

/-- Specification-side accumulated value of a directive, following the
wording of the spec: every resolved element prefixed with a single space,
concatenated in order. Used only to compare the renderer against the spec. -/
def specAccumulatedValue {Req Res : Type} (req : Req) (res : Res) :
    List (DirectiveValue Req Res) → String
  | [] => ""
  | e :: rest => (" " ++ resolveElement req res e) ++ specAccumulatedValue req res rest

/-- Specification-side rendering of one directive, following the wording of
the spec: the bare name when the accumulated value is empty (valence form),
otherwise the name followed by the accumulated value, which carries its own
leading space. -/
def specRenderedDirective {Req Res : Type} (req : Req) (res : Res)
    (nd : NormalizedDirective Req Res) : String :=
  if specAccumulatedValue req res nd.directiveValue = "" then nd.directiveName
  else nd.directiveName ++ specAccumulatedValue req res nd.directiveValue

/-- Header name selected once at setup from the reportOnly flag. -/
def headerNameFor (reportOnly : Bool) : String :=
  if reportOnly then "Content-Security-Policy-Report-Only"
  else "Content-Security-Policy"

/-- Observable outcome of one middleware invocation: the header set on the
response, if any (the middleware sets at most one), and the argument passed
to the continuation, if any. -/
structure MiddlewareResult where
  header : Option (String × String)
  nextArg : Option CspError
  deriving DecidableEq

/-- Per-request middleware body (contentSecurityPolicyMiddleware in the
source): renders the captured normalized directives, and on an error invokes
the continuation with it without touching the response, while on success sets
the chosen header to the rendered string and invokes the continuation with no
argument. -/
def contentSecurityPolicyMiddleware {Req Res : Type} (headerName : String)
    (normalizedDirectives : List (NormalizedDirective Req Res))
    (req : Req) (res : Res) : MiddlewareResult :=
  match getHeaderValue req res normalizedDirectives with
  | .error e => ⟨none, some e⟩
  | .ok s => ⟨some (headerName, s), none⟩

namespace HeapModel

/-- Reference-level model of the JavaScript values involved in the accessor
getDefaultDirectives. A heap holds objects (directive mappings, each a list of
bindings from key to an array reference) and arrays (value lists). Object and
array references are indices into the respective lists. -/
structure Heap where
  objects : List (List (String × Nat))
  arrays : List (List String)
  deriving DecidableEq

/-- Bindings of the shared DEFAULT_DIRECTIVES object: each key is bound to the
reference of its value array. -/
def defaultBindings : List (String × Nat) :=
  [("default-src", 0), ("base-uri", 1), ("block-all-mixed-content", 2),
   ("font-src", 3), ("frame-ancestors", 4), ("img-src", 5), ("object-src", 6),
   ("script-src", 7), ("script-src-attr", 8), ("style-src", 9),
   ("upgrade-insecure-requests", 10)]

/-- Initial heap: object 0 is the shared DEFAULT_DIRECTIVES table, arrays 0
to 10 are its value lists. -/
def initHeap : Heap :=
  ⟨[defaultBindings],
   [["'self'"], ["'self'"], [], ["'self'", "https:", "data:"], ["'self'"],
    ["'self'", "data:"], ["'none'"], ["'self'"], ["'none'"],
    ["'self'", "https:", "'unsafe-inline'"], []]⟩

/-- Accessor returning a copy of the default table, modelled with explicit
references: the source spreads DEFAULT_DIRECTIVES into a new object literal,
which allocates a fresh object whose bindings are those of object 0. The
spread copies the key bindings only, not the arrays they reference. Returns
the new heap and the reference of the fresh object. -/
def getDefaultDirectives (h : Heap) : Heap × Nat :=
  (⟨h.objects ++ [h.objects.getD 0 []], h.arrays⟩, h.objects.length)

/-- Lookup of a key in the bindings of an object. -/
def readKey (h : Heap) (obj : Nat) (k : String) : Option Nat :=
  match (h.objects.getD obj []).find? (fun p => p.1 == k) with
  | some p => some p.2
  | none => none

/-- Value list observed through an object for a key: follow the binding to
its array. -/
def readValues (h : Heap) (obj : Nat) (k : String) : Option (List String) :=
  match readKey h obj k with
  | some r => some (h.arrays.getD r [])
  | none => none

/-- Mutation of an object: bind a key to an array reference, replacing an
existing binding in place or appending a new one, as JavaScript assignment to
an object property does. -/
def setKey (h : Heap) (obj : Nat) (k : String) (r : Nat) : Heap :=
  let bindings := h.objects.getD obj []
  let bindings' :=
    if bindings.any (fun p => p.1 == k) then
      bindings.map (fun p => if p.1 == k then (k, r) else p)
    else
      bindings ++ [(k, r)]
  ⟨h.objects.set obj bindings', h.arrays⟩

/-- In-place mutation of an array: append an element, as the JavaScript array
push does. -/
def pushElem (h : Heap) (r : Nat) (v : String) : Heap :=
  ⟨h.objects, h.arrays.set r ((h.arrays.getD r []) ++ [v])⟩

/-- Heap after the first call of the accessor. -/
def heap1 : Heap := (getDefaultDirectives initHeap).1

/-- Object reference returned by the first call of the accessor. -/
def copy1 : Nat := (getDefaultDirectives initHeap).2

/-- Heap after a second call of the accessor. -/
def heap2 : Heap := (getDefaultDirectives heap1).1

/-- Object reference returned by the second call of the accessor. -/
def copy2 : Nat := (getDefaultDirectives heap1).2

end HeapModel

/-- Packing a valid codepoint and reading it back is the identity. -/
theorem toNat_charOfNat (n : Nat) (h : n < 55296) : (Char.ofNat n).toNat = n := by
  unfold Char.ofNat
  rw [dif_pos (Or.inl h)]
  rfl

/-- Lowercasing an ASCII capital letter lands in the lowercase letter range. -/
theorem toLower_bounds (c : Char) (h : c.isUpper = true) :
    97 ≤ c.toLower.toNat ∧ c.toLower.toNat ≤ 122 := by
  simp only [Char.isUpper, Bool.and_eq_true, decide_eq_true_eq] at h
  obtain ⟨h1, h2⟩ := h
  have h1' : 65 ≤ c.toNat := h1
  have h2' : c.toNat ≤ 90 := h2
  unfold Char.toLower
  rw [if_pos ⟨h1', h2'⟩]
  rw [toNat_charOfNat (c.toNat + 32) (by omega)]
  omega

/-- Characters of the directive name class are not separators. -/
theorem validNameChar_not_sep {c : Char} (h : isValidDirectiveNameChar c = true) :
    (c == ';' || c == ',') = false := by
  simp only [isValidDirectiveNameChar, Bool.or_eq_true, Bool.and_eq_true,
    decide_eq_true_eq, beq_iff_eq] at h
  simp only [Bool.or_eq_false_iff, beq_eq_false_iff_ne, ne_eq]
  rcases h with ((⟨a, b⟩ | ⟨a, b⟩) | ⟨a, b⟩) | rfl
  · exact ⟨fun hc => by subst hc; revert a b; decide,
           fun hc => by subst hc; revert a b; decide⟩
  · exact ⟨fun hc => by subst hc; revert a b; decide,
           fun hc => by subst hc; revert a b; decide⟩
  · exact ⟨fun hc => by subst hc; revert a b; decide,
           fun hc => by subst hc; revert a b; decide⟩
  · exact ⟨by decide, by decide⟩

/-- Characters produced by the dashify replacement of a valid name character
are again valid name characters. -/
theorem dashifyChar_valid {c : Char} (h : isValidDirectiveNameChar c = true) :
    ∀ d ∈ dashifyChar c, isValidDirectiveNameChar d = true := by
  intro d hd
  unfold dashifyChar at hd
  by_cases hc : c.isUpper = true
  · rw [if_pos hc] at hd
    simp only [List.mem_cons, List.not_mem_nil, or_false] at hd
    rcases hd with rfl | rfl
    · decide
    · obtain ⟨b1, b2⟩ := toLower_bounds c hc
      simp only [isValidDirectiveNameChar, Bool.or_eq_true, Bool.and_eq_true,
        decide_eq_true_eq]
      exact Or.inl (Or.inl (Or.inl ⟨b1, b2⟩))
  · rw [if_neg hc] at hd
    simp only [List.mem_cons, List.not_mem_nil, or_false] at hd
    subst hd
    exact h

/-- Characters of a canonicalized valid directive name are valid name
characters. -/
theorem dashify_valid {s : String} (h : isInvalidDirectiveName s = false) :
    ∀ c ∈ (dashify s).data, isValidDirectiveNameChar c = true := by
  simp only [isInvalidDirectiveName, Bool.or_eq_false_iff] at h
  obtain ⟨h1, h2⟩ := h
  rw [List.any_eq_false] at h2
  intro c hc
  have hc' : c ∈ (s.data.map dashifyChar).flatten := hc
  rw [List.mem_flatten] at hc'
  obtain ⟨l, hl, hcl⟩ := hc'
  rw [List.mem_map] at hl
  obtain ⟨a, ha, rfl⟩ := hl
  have hva := h2 a ha
  simp only [Bool.not_eq_true', Bool.not_eq_false] at hva
  exact dashifyChar_valid hva c hcl

/-- Strings whose characters are all valid name characters contain no
separator. -/
theorem sepFree_of_validChars {s : String}
    (h : ∀ c ∈ s.data, isValidDirectiveNameChar c = true) :
    isDirectiveValueInvalid s = false := by
  unfold isDirectiveValueInvalid
  rw [List.any_eq_false]
  intro c hc
  rw [validNameChar_not_sep (h c hc)]
  exact Bool.false_ne_true

/-- Canonicalization of a valid raw name yields a separator-free name. -/
theorem dashify_sepFree {s : String} (h : isInvalidDirectiveName s = false) :
    isDirectiveValueInvalid (dashify s) = false :=
  sepFree_of_validChars (dashify_valid h)

/-- Separator test distributes over string concatenation. -/
theorem isDirectiveValueInvalid_append (a b : String) :
    isDirectiveValueInvalid (a ++ b) =
      (isDirectiveValueInvalid a || isDirectiveValueInvalid b) := by
  unfold isDirectiveValueInvalid
  rw [String.data_append, List.any_append]

/-- Name invariant of the normalization loop: when the loop succeeds and all
already-accumulated entries have separator-free names, every entry of the
final result has a separator-free name. -/
theorem normalizeLoop_names {Req Res : Type} :
    ∀ (l : List (String × RawDirectiveValue Req Res)) (seen : List String)
      (acc : List (NormalizedDirective Req Res))
      (out : List String × List (NormalizedDirective Req Res)),
    normalizeLoop l seen acc = .ok out →
    (∀ nd ∈ acc, isDirectiveValueInvalid nd.directiveName = false) →
    ∀ nd ∈ out.2, isDirectiveValueInvalid nd.directiveName = false := by
  intro l
  induction l with
  | nil =>
    intro seen acc out h hacc
    simp only [normalizeLoop, Except.ok.injEq] at h
    subst h
    exact hacc
  | cons p rest ih =>
    intro seen acc out h hacc
    obtain ⟨rawName, rawVal⟩ := p
    cases rawVal with
    | str s =>
      simp only [normalizeLoop] at h
      split at h
      · exact Except.noConfusion h
      · rename_i hname
        split at h
        · exact Except.noConfusion h
        · split at h
          · exact Except.noConfusion h
          · refine ih _ _ _ h ?_
            intro nd hnd
            rcases List.mem_append.mp hnd with hnd | hnd
            · exact hacc nd hnd
            · simp only [List.mem_cons, List.not_mem_nil, or_false] at hnd
              subst hnd
              exact dashify_sepFree (eq_false_of_ne_true hname)
    | values vl =>
      simp only [normalizeLoop] at h
      split at h
      · exact Except.noConfusion h
      · rename_i hname
        split at h
        · exact Except.noConfusion h
        · split at h
          · exact Except.noConfusion h
          · refine ih _ _ _ h ?_
            intro nd hnd
            rcases List.mem_append.mp hnd with hnd | hnd
            · exact hacc nd hnd
            · simp only [List.mem_cons, List.not_mem_nil, or_false] at hnd
              subst hnd
              exact dashify_sepFree (eq_false_of_ne_true hname)
    | disableDefaultSrc =>
      simp only [normalizeLoop] at h
      split at h
      · exact Except.noConfusion h
      · split at h
        · exact Except.noConfusion h
        · split at h
          · exact ih _ _ _ h hacc
          · exact Except.noConfusion h
    | nullish =>
      simp only [normalizeLoop] at h
      split at h
      · exact Except.noConfusion h
      · split at h
        · exact Except.noConfusion h
        · exact Except.noConfusion h

/-- Every entry of a successfully normalized configuration has a
separator-free directive name. -/
theorem normalizeDirectives_names {Req Res : Type}
    (opts : ContentSecurityPolicyOptions Req Res)
    (nds : List (NormalizedDirective Req Res))
    (h : normalizeDirectives opts = .ok nds) :
    ∀ nd ∈ nds, isDirectiveValueInvalid nd.directiveName = false := by
  unfold normalizeDirectives at h
  split at h
  · exact Except.noConfusion h
  · rename_i out heq
    split at h
    · exact Except.noConfusion h
    · split at h
      · exact Except.noConfusion h
      · simp only [Except.ok.injEq] at h
        subst h
        exact normalizeLoop_names _ _ _ _ heq (by intro nd hnd; cases hnd)

/-- Characters of the joined header string come from the separator or from
one of the pieces. -/
theorem mem_joinWithSemicolon :
    ∀ (pieces : List String) (c : Char), c ∈ (joinWithSemicolon pieces).data →
      c = ';' ∨ ∃ p ∈ pieces, c ∈ p.data := by
  intro pieces
  induction pieces with
  | nil =>
    intro c hc
    cases hc
  | cons a rest ih =>
    cases rest with
    | nil =>
      intro c hc
      exact Or.inr ⟨a, by simp, hc⟩
    | cons b rest' =>
      intro c hc
      have hc' : c ∈ (a ++ ";" ++ joinWithSemicolon (b :: rest')).data := hc
      simp only [String.data_append, List.mem_append] at hc'
      rcases hc' with (hc' | hc') | hc'
      · exact Or.inr ⟨a, by simp, hc'⟩
      · left
        simpa using hc'
      · rcases ih c hc' with hc'' | ⟨p, hp, hcp⟩
        · exact Or.inl hc''
        · exact Or.inr ⟨p, by simp [hp], hcp⟩

/-- Success case of the rendering loop: the output is the join of the
accumulated pieces with one separator-free piece per remaining directive,
provided the remaining directive names are separator-free. -/
theorem renderLoop_ok {Req Res : Type} (req : Req) (res : Res) :
    ∀ (l : List (NormalizedDirective Req Res)) (acc : List String) (s : String),
    renderLoop req res l acc = .ok s →
    (∀ nd ∈ l, isDirectiveValueInvalid nd.directiveName = false) →
    ∃ pieces : List String, s = joinWithSemicolon (acc ++ pieces) ∧
      pieces.length = l.length ∧
      ∀ p ∈ pieces, isDirectiveValueInvalid p = false := by
  intro l
  induction l with
  | nil =>
    intro acc s h _
    simp only [renderLoop, Except.ok.injEq] at h
    exact ⟨[], by simp [h], rfl, by simp⟩
  | cons nd rest ih =>
    intro acc s h hl
    simp only [renderLoop] at h
    split at h
    · obtain ⟨pieces, hs, hlen, hsep⟩ :=
        ih (acc ++ [nd.directiveName]) s h (fun x hx => hl x (List.mem_cons_of_mem _ hx))
      refine ⟨nd.directiveName :: pieces, ?_, by simp [hlen], ?_⟩
      · rw [hs, List.append_assoc]
        rfl
      · intro p hp
        rcases List.mem_cons.mp hp with rfl | hp
        · exact hl nd (List.mem_cons_self _ _)
        · exact hsep p hp
    · split at h
      · exact Except.noConfusion h
      · rename_i hne hval
        obtain ⟨pieces, hs, hlen, hsep⟩ :=
          ih (acc ++ [nd.directiveName ++ accumulateValue req res nd.directiveValue]) s h
            (fun x hx => hl x (List.mem_cons_of_mem _ hx))
        refine ⟨(nd.directiveName ++ accumulateValue req res nd.directiveValue) :: pieces,
          ?_, by simp [hlen], ?_⟩
        · rw [hs, List.append_assoc]
          rfl
        · intro p hp
          rcases List.mem_cons.mp hp with rfl | hp
          · rw [isDirectiveValueInvalid_append]
            rw [hl nd (List.mem_cons_self _ _), eq_false_of_ne_true hval]
            rfl
          · exact hsep p hp

/-- Folding the renderer accumulation from any initial string agrees with
appending the specification-side accumulated value. -/
theorem foldl_accumulate {Req Res : Type} (req : Req) (res : Res) :
    ∀ (l : List (DirectiveValue Req Res)) (a : String),
    l.foldl (fun acc element => acc ++ " " ++ resolveElement req res element) a =
      a ++ specAccumulatedValue req res l := by
  intro l
  induction l with
  | nil =>
    intro a
    simp only [List.foldl_nil, specAccumulatedValue, String.append_empty]
  | cons e rest ih =>
    intro a
    simp only [List.foldl_cons, specAccumulatedValue]
    rw [ih, String.append_assoc, String.append_assoc, String.append_assoc]

/-- The accumulated value computed by the renderer coincides with the
specification-side accumulated value. -/
theorem accumulateValue_eq_spec {Req Res : Type} (req : Req) (res : Res)
    (l : List (DirectiveValue Req Res)) :
    accumulateValue req res l = specAccumulatedValue req res l := by
  unfold accumulateValue
  rw [foldl_accumulate, String.empty_append]

/-- Emptiness of the character list decides equality with the empty string. -/
theorem data_isEmpty_iff (s : String) : s.data.isEmpty = true ↔ s = "" := by
  constructor
  · intro h
    apply String.ext
    simpa [List.isEmpty_iff] using h
  · intro h
    subst h
    rfl

/-- Format of the rendering loop: when every remaining directive has a
separator-free accumulated value, the loop succeeds and returns the join of
the accumulated pieces with the specification-side rendering of each
remaining directive, in order. -/
theorem renderLoop_eq_spec {Req Res : Type} (req : Req) (res : Res) :
    ∀ (l : List (NormalizedDirective Req Res)) (acc : List String),
    (∀ nd ∈ l, isDirectiveValueInvalid (accumulateValue req res nd.directiveValue) = false) →
    renderLoop req res l acc =
      .ok (joinWithSemicolon (acc ++ l.map (specRenderedDirective req res))) := by
  intro l
  induction l with
  | nil =>
    intro acc _
    simp [renderLoop]
  | cons nd rest ih =>
    intro acc hl
    simp only [renderLoop]
    split
    · rename_i hempty
      rw [ih (acc ++ [nd.directiveName]) (fun x hx => hl x (List.mem_cons_of_mem _ hx))]
      have hspec : specRenderedDirective req res nd = nd.directiveName := by
        unfold specRenderedDirective
        rw [if_pos]
        rw [← accumulateValue_eq_spec]
        exact (data_isEmpty_iff _).mp hempty
      rw [List.map_cons, hspec, List.append_assoc]
      rfl
    · rename_i hempty
      split
      · rename_i hval
        exact absurd (hl nd (List.mem_cons_self _ _)) (by simp [hval])
      · rename_i hval
        rw [ih (acc ++ [nd.directiveName ++ accumulateValue req res nd.directiveValue])
          (fun x hx => hl x (List.mem_cons_of_mem _ hx))]
        have hspec : specRenderedDirective req res nd =
            nd.directiveName ++ accumulateValue req res nd.directiveValue := by
          unfold specRenderedDirective
          rw [if_neg]
          · rw [accumulateValue_eq_spec]
          · rw [← accumulateValue_eq_spec]
            intro hcon
            rw [hcon] at hempty
            exact hempty rfl
        rw [List.map_cons, hspec, List.append_assoc]
        rfl

/-- Claim C1: explicit disablement of default-src via the sentinel suppresses
the missing-default-src error. Normalizing the mapping binding defaultSrc to
the sentinel and objectSrc to the list with the single literal value none
succeeds, the resulting normalized policy contains no entry named
default-src, and normalizing the mapping binding only defaultSrc to the
sentinel fails with the no-directives error, not the needs-default-src
error. -/
theorem claim_c1_sentinel_suppresses_needs_default_src :
    normalizeDirectives
      (⟨some [("defaultSrc", .disableDefaultSrc),
              ("objectSrc", .values [.literal "'none'"])], false⟩ :
        ContentSecurityPolicyOptions Unit Unit) =
      .ok [⟨"object-src", [.literal "'none'"]⟩] ∧
    List.all
      ([⟨"object-src", [.literal "'none'"]⟩] : List (NormalizedDirective Unit Unit))
      (fun nd => nd.directiveName != "default-src") = true ∧
    normalizeDirectives
      (⟨some [("defaultSrc", .disableDefaultSrc)], false⟩ :
        ContentSecurityPolicyOptions Unit Unit) =
      .error .noDirectives :=
  ⟨rfl, rfl, rfl⟩

/-- Claim C4: normalizing a configuration with no directives mapping
substitutes the built-in default table and succeeds, and the result contains
exactly one default-src entry, whose value list is the single literal
self. -/
theorem claim_c4_default_configuration :
    normalizeDirectives (⟨none, false⟩ : ContentSecurityPolicyOptions Unit Unit) =
      .ok [⟨"default-src", [.literal "'self'"]⟩,
           ⟨"base-uri", [.literal "'self'"]⟩,
           ⟨"block-all-mixed-content", []⟩,
           ⟨"font-src", [.literal "'self'", .literal "https:", .literal "data:"]⟩,
           ⟨"frame-ancestors", [.literal "'self'"]⟩,
           ⟨"img-src", [.literal "'self'", .literal "data:"]⟩,
           ⟨"object-src", [.literal "'none'"]⟩,
           ⟨"script-src", [.literal "'self'"]⟩,
           ⟨"script-src-attr", [.literal "'none'"]⟩,
           ⟨"style-src", [.literal "'self'", .literal "https:", .literal "'unsafe-inline'"]⟩,
           ⟨"upgrade-insecure-requests", []⟩] ∧
    List.filter (fun nd => nd.directiveName == "default-src")
      ([⟨"default-src", [.literal "'self'"]⟩,
        ⟨"base-uri", [.literal "'self'"]⟩,
        ⟨"block-all-mixed-content", []⟩,
        ⟨"font-src", [.literal "'self'", .literal "https:", .literal "data:"]⟩,
        ⟨"frame-ancestors", [.literal "'self'"]⟩,
        ⟨"img-src", [.literal "'self'", .literal "data:"]⟩,
        ⟨"object-src", [.literal "'none'"]⟩,
        ⟨"script-src", [.literal "'self'"]⟩,
        ⟨"script-src-attr", [.literal "'none'"]⟩,
        ⟨"style-src", [.literal "'self'", .literal "https:", .literal "'unsafe-inline'"]⟩,
        ⟨"upgrade-insecure-requests", []⟩] : List (NormalizedDirective Unit Unit)) =
      [⟨"default-src", [.literal "'self'"]⟩] :=
  ⟨rfl, rfl⟩

/-- Claim C6: canonicalization maps camelCase and kebab-case spellings of the
same directive to the same canonical entry. The canonicalizations of
scriptSrc and script-src coincide, the per-entry loop produces the identical
normalized entry for both spellings, full normalization results coincide for
both spellings whether alone or alongside a defaultSrc entry, and a mapping
supplying both spellings at once fails with the duplicate-directive error. -/
theorem claim_c6_camel_kebab_same_entry :
    dashify "scriptSrc" = dashify "script-src" ∧
    normalizeLoop [("scriptSrc", .values [.literal "'self'"])] []
        ([] : List (NormalizedDirective Unit Unit)) =
      normalizeLoop [("script-src", .values [.literal "'self'"])] [] [] ∧
    normalizeLoop [("scriptSrc", .values [.literal "'self'"])] []
        ([] : List (NormalizedDirective Unit Unit)) =
      .ok (["script-src"], [⟨"script-src", [.literal "'self'"]⟩]) ∧
    normalizeDirectives
      (⟨some [("defaultSrc", .values [.literal "'self'"]),
              ("scriptSrc", .values [.literal "'self'"])], false⟩ :
        ContentSecurityPolicyOptions Unit Unit) =
      normalizeDirectives
        ⟨some [("defaultSrc", .values [.literal "'self'"]),
               ("script-src", .values [.literal "'self'"])], false⟩ ∧
    normalizeDirectives
      (⟨some [("scriptSrc", .values [.literal "'self'"])], false⟩ :
        ContentSecurityPolicyOptions Unit Unit) =
      normalizeDirectives
        ⟨some [("script-src", .values [.literal "'self'"])], false⟩ ∧
    normalizeDirectives
      (⟨some [("scriptSrc", .values [.literal "'self'"]),
              ("script-src", .values [.literal "'self'"])], false⟩ :
        ContentSecurityPolicyOptions Unit Unit) =
      .error (.duplicateDirective "script-src") :=
  ⟨rfl, rfl, rfl, rfl, rfl, rfl⟩

/-- Claim C8: using the disable sentinel as the value of a directive whose
canonical name is not default-src is a normalization error: the mapping
binding only scriptSrc to the sentinel fails. -/
theorem claim_c8_sentinel_on_non_default_src_fails :
    normalizeDirectives
      (⟨some [("scriptSrc", .disableDefaultSrc)], false⟩ :
        ContentSecurityPolicyOptions Unit Unit) =
      .error (.disableNonDefaultSrc "script-src") :=
  rfl

/-- Claim C9: a raw directive name beginning with an uppercase letter passes
the character-set validation, canonicalizes to a name with a leading hyphen
that is distinct from default-src, so that a configuration supplying only
such a name still fails the needs-default-src check, and the leading-hyphen
name is emitted verbatim in the header when normalization otherwise
succeeds. -/
theorem claim_c9_leading_uppercase_name :
    dashify "DefaultSrc" = "-default-src" ∧
    isInvalidDirectiveName "DefaultSrc" = false ∧
    normalizeDirectives
      (⟨some [("DefaultSrc", .values [.literal "'self'"])], false⟩ :
        ContentSecurityPolicyOptions Unit Unit) =
      .error .needsDefaultSrc ∧
    normalizeDirectives
      (⟨some [("defaultSrc", .values [.literal "'self'"]),
              ("DefaultSrc", .values [.literal "'a'"])], false⟩ :
        ContentSecurityPolicyOptions Unit Unit) =
      .ok [⟨"default-src", [.literal "'self'"]⟩,
           ⟨"-default-src", [.literal "'a'"]⟩] ∧
    getHeaderValue () ()
      ([⟨"default-src", [.literal "'self'"]⟩,
        ⟨"-default-src", [.literal "'a'"]⟩] : List (NormalizedDirective Unit Unit)) =
      .ok "default-src 'self';-default-src 'a'" :=
  ⟨rfl, rfl, rfl, rfl, rfl⟩

/-- Claim C10: the bare empty string is accepted as a directive value at
normalization and becomes the single-element list holding the empty string,
because the string test precedes the falsy-value rejection; and at render
time a directive whose elements all resolve to the empty string does not take
the bare-name valence form, rendering instead as the name followed by one
space per element. -/
theorem claim_c10_empty_string_value :
    normalizeDirectives
      (⟨some [("defaultSrc", .str "")], false⟩ :
        ContentSecurityPolicyOptions Unit Unit) =
      .ok [⟨"default-src", [.literal ""]⟩] ∧
    getHeaderValue () ()
      ([⟨"default-src", [.literal ""]⟩] : List (NormalizedDirective Unit Unit)) =
      .ok "default-src " ∧
    getHeaderValue () ()
      ([⟨"default-src", [.literal "", .literal ""]⟩] :
        List (NormalizedDirective Unit Unit)) =
      .ok "default-src  " ∧
    getHeaderValue () ()
      ([⟨"default-src", [.dynamic (fun _ _ => "")]⟩] :
        List (NormalizedDirective Unit Unit)) =
      .ok "default-src " :=
  ⟨rfl, rfl, rfl, rfl⟩

/-- Claim C5, counterexample: the accessor copy is shallow, so a mutation of
a value list performed through the array reference obtained from one returned
copy is observable both through the other returned copy and through the
shared default table. Before the mutation both report the single value self
for default-src; after pushing a new element through the reference read from
the first copy, both report the extended list. -/
theorem claim_c5_counterexample_shallow_copy_shares_arrays :
    HeapModel.readKey HeapModel.heap2 HeapModel.copy1 "default-src" = some 0 ∧
    HeapModel.readValues HeapModel.heap2 HeapModel.copy2 "default-src" =
      some ["'self'"] ∧
    HeapModel.readValues HeapModel.heap2 0 "default-src" = some ["'self'"] ∧
    HeapModel.readValues
      (HeapModel.pushElem HeapModel.heap2
        ((HeapModel.readKey HeapModel.heap2 HeapModel.copy1 "default-src").getD 99)
        "https://evil.example")
      HeapModel.copy2 "default-src" = some ["'self'", "https://evil.example"] ∧
    HeapModel.readValues
      (HeapModel.pushElem HeapModel.heap2
        ((HeapModel.readKey HeapModel.heap2 HeapModel.copy1 "default-src").getD 99)
        "https://evil.example")
      0 "default-src" = some ["'self'", "https://evil.example"] :=
  ⟨rfl, rfl, rfl, rfl, rfl⟩

/-- Claim C5, amended: every call of the accessor returns a fresh object,
distinct from the default table and from other calls, whose key bindings are
an independent copy, so rebinding a key through one returned copy is not
observable through the default table or through another returned copy; but
the copy is shallow, the bindings of each copy reference the very same value
arrays as the default table, so in-place mutation of a value list is shared
(the counterexample above). -/
theorem claim_c5_amended_shallow_copy :
    HeapModel.copy1 ≠ 0 ∧
    HeapModel.copy2 ≠ 0 ∧
    HeapModel.copy1 ≠ HeapModel.copy2 ∧
    (∀ k : String,
      HeapModel.readKey HeapModel.heap2 HeapModel.copy1 k =
        HeapModel.readKey HeapModel.heap2 0 k) ∧
    (∀ (k : String) (r : Nat) (k' : String),
      HeapModel.readKey (HeapModel.setKey HeapModel.heap2 HeapModel.copy1 k r)
          HeapModel.copy2 k' =
        HeapModel.readKey HeapModel.heap2 HeapModel.copy2 k' ∧
      HeapModel.readKey (HeapModel.setKey HeapModel.heap2 HeapModel.copy1 k r)
          0 k' =
        HeapModel.readKey HeapModel.heap2 0 k') :=
  ⟨by decide, by decide, by decide, fun _ => rfl, fun _ _ _ => ⟨rfl, rfl⟩⟩

/-- Witness for the amended claim C5 at a concrete key, array reference and
probe key. -/
theorem claim_c5_amended_witness :
    HeapModel.readKey
        (HeapModel.setKey HeapModel.heap2 HeapModel.copy1 "default-src" 11)
        HeapModel.copy2 "default-src" =
      HeapModel.readKey HeapModel.heap2 HeapModel.copy2 "default-src" ∧
    HeapModel.readKey
        (HeapModel.setKey HeapModel.heap2 HeapModel.copy1 "default-src" 11)
        0 "default-src" =
      HeapModel.readKey HeapModel.heap2 0 "default-src" :=
  claim_c5_amended_shallow_copy.2.2.2.2 "default-src" 11 "default-src"

/-- Claim C2: for every configuration accepted by normalization and every
request and response for which rendering succeeds, the returned header string
is the join of one separator-free piece per normalized directive, so the
semicolon occurs only as the separator between consecutive directives, and
the string contains no comma at all. -/
theorem claim_c2_no_stray_separators (Req Res : Type)
    (opts : ContentSecurityPolicyOptions Req Res) (req : Req) (res : Res)
    (nds : List (NormalizedDirective Req Res)) (s : String)
    (h1 : normalizeDirectives opts = .ok nds)
    (h2 : getHeaderValue req res nds = .ok s) :
    (∃ pieces : List String, s = joinWithSemicolon pieces ∧
      pieces.length = nds.length ∧
      ∀ p ∈ pieces, isDirectiveValueInvalid p = false) ∧
    s.data.any (fun c => c == ',') = false := by
  have hnames := normalizeDirectives_names opts nds h1
  obtain ⟨pieces, hs, hlen, hsep⟩ := renderLoop_ok req res nds [] s h2 hnames
  rw [List.nil_append] at hs
  refine ⟨⟨pieces, hs, hlen, hsep⟩, ?_⟩
  rw [List.any_eq_false]
  intro c hc
  rw [hs] at hc
  rcases mem_joinWithSemicolon pieces c hc with rfl | ⟨p, hp, hcp⟩
  · decide
  · have hpf := hsep p hp
    unfold isDirectiveValueInvalid at hpf
    rw [List.any_eq_false] at hpf
    have hcf := hpf c hcp
    simp only [Bool.or_eq_true, not_or] at hcf
    simpa using hcf.2

/-- Witness for claim C2 at a concrete configuration with one directive. -/
theorem claim_c2_witness :
    (∃ pieces : List String, "default-src 'self'" = joinWithSemicolon pieces ∧
      pieces.length = 1 ∧
      ∀ p ∈ pieces, isDirectiveValueInvalid p = false) ∧
    ("default-src 'self'").data.any (fun c => c == ',') = false :=
  claim_c2_no_stray_separators Unit Unit
    ⟨some [("defaultSrc", .str "'self'")], false⟩ () ()
    [⟨"default-src", [.literal "'self'"]⟩] "default-src 'self'" rfl rfl

/-- Claim C3: per request, when rendering fails the middleware passes the
error to the continuation and sets no header, and when rendering succeeds it
sets exactly the chosen header to the rendered string and invokes the
continuation with no argument; a header is never set on a failed render. -/
theorem claim_c3_middleware_error_channel (Req Res : Type) (headerName : String)
    (nds : List (NormalizedDirective Req Res)) (req : Req) (res : Res) :
    (∀ e : CspError, getHeaderValue req res nds = .error e →
      contentSecurityPolicyMiddleware headerName nds req res =
        ⟨none, some e⟩) ∧
    (∀ s : String, getHeaderValue req res nds = .ok s →
      contentSecurityPolicyMiddleware headerName nds req res =
        ⟨some (headerName, s), none⟩) ∧
    ((contentSecurityPolicyMiddleware headerName nds req res).nextArg.isSome →
      (contentSecurityPolicyMiddleware headerName nds req res).header = none) := by
  unfold contentSecurityPolicyMiddleware
  refine ⟨fun e he => ?_, fun s hs => ?_, fun herr => ?_⟩
  · rw [he]
  · rw [hs]
  · revert herr
    cases getHeaderValue req res nds with
    | error e => intro; rfl
    | ok s => intro herr; cases herr

/-- Witness for claim C3: a dynamic producer returning a semicolon makes the
middleware report the error and set no header, while a clean producer makes
it set the header and signal success. -/
theorem claim_c3_witness :
    contentSecurityPolicyMiddleware "Content-Security-Policy"
      ([⟨"default-src", [.dynamic (fun _ _ => ";")]⟩] :
        List (NormalizedDirective Unit Unit)) () () =
      ⟨none, some (.invalidDirectiveValue "default-src")⟩ ∧
    contentSecurityPolicyMiddleware "Content-Security-Policy"
      ([⟨"default-src", [.literal "'self'"]⟩] :
        List (NormalizedDirective Unit Unit)) () () =
      ⟨some ("Content-Security-Policy", "default-src 'self'"), none⟩ ∧
    (contentSecurityPolicyMiddleware "Content-Security-Policy"
      ([⟨"default-src", [.dynamic (fun _ _ => ";")]⟩] :
        List (NormalizedDirective Unit Unit)) () ()).header = none :=
  ⟨(claim_c3_middleware_error_channel Unit Unit "Content-Security-Policy"
      [⟨"default-src", [.dynamic (fun _ _ => ";")]⟩] () ()).1
      (.invalidDirectiveValue "default-src") rfl,
   (claim_c3_middleware_error_channel Unit Unit "Content-Security-Policy"
      [⟨"default-src", [.literal "'self'"]⟩] () ()).2.1
      "default-src 'self'" rfl,
   (claim_c3_middleware_error_channel Unit Unit "Content-Security-Policy"
      [⟨"default-src", [.dynamic (fun _ _ => ";")]⟩] () ()).2.2 (by rfl)⟩

/-- Claim C7: rendering serializes each directive as its name followed by its
resolved values each prefixed by a single space, renders a directive with an
empty accumulated value as the bare name, joins the directives with a
semicolon, no trailing separator, preserving order; and concretely, the
configuration binding defaultSrc to the single literal self and
blockAllMixedContent to the empty list normalizes and renders to the exact
header string of the claim. -/
theorem claim_c7_render_serialization (Req Res : Type) (req : Req) (res : Res)
    (nds : List (NormalizedDirective Req Res))
    (h : ∀ nd ∈ nds,
      isDirectiveValueInvalid (accumulateValue req res nd.directiveValue) = false) :
    getHeaderValue req res nds =
      .ok (joinWithSemicolon (nds.map (specRenderedDirective req res))) ∧
    normalizeDirectives
      (⟨some [("defaultSrc", .values [.literal "'self'"]),
              ("blockAllMixedContent", .values [])], false⟩ :
        ContentSecurityPolicyOptions Unit Unit) =
      .ok [⟨"default-src", [.literal "'self'"]⟩,
           ⟨"block-all-mixed-content", []⟩] ∧
    getHeaderValue () ()
      ([⟨"default-src", [.literal "'self'"]⟩,
        ⟨"block-all-mixed-content", []⟩] : List (NormalizedDirective Unit Unit)) =
      .ok "default-src 'self';block-all-mixed-content" := by
  refine ⟨?_, rfl, rfl⟩
  unfold getHeaderValue
  rw [renderLoop_eq_spec req res nds [] h, List.nil_append]

/-- Witness for claim C7 at the concrete configuration of the claim. -/
theorem claim_c7_witness :
    getHeaderValue () ()
      ([⟨"default-src", [.literal "'self'"]⟩,
        ⟨"block-all-mixed-content", []⟩] : List (NormalizedDirective Unit Unit)) =
      .ok "default-src 'self';block-all-mixed-content" :=
  (claim_c7_render_serialization Unit Unit () ()
    [⟨"default-src", [.literal "'self'"]⟩, ⟨"block-all-mixed-content", []⟩]
    (by decide)).1

end Csp
